import Mathlib

/-!
Verification of the maze-game simulation core of this repository.

The JavaScript sources are embedded shallowly over `ℚ` (pixel coordinates,
timers and speeds are JS numbers; all operations that appear in the code —
`+`, `-`, `*`, `/`, `Math.min`, `Math.max`, `Math.floor`, `Math.round`,
comparisons — are modelled exactly over the rationals).

Embedded modules:
* `checkCollision` / `checkPlayerGhostCollisions` — CollisionManager
  (bounds-based revision, the one the engine's game loop consumes).
* `isValidMove`, `isEntityInValidPosition`, `getMazePositions`,
  `gameLoopFrame`, `increaseDifficulty`, `addGhost`,
  `validateEntityPositions` — GameEngine (the 8-sample-point revision).
* `playerUpdate` — Player.update (per-axis movement, GameEngine present).
* `ghostUpdate`, `chooseNewDirection`, `mkGhost` — Ghost
  (GameEngine present).

Randomness (`Math.random()`) is modelled as an injected random source
`r : ℕ → ℚ` consumed at an explicit cursor, with the hypothesis
`0 ≤ r i < 1` wherever a theorem needs it.  The external input direction
and the canvas dimensions are explicit parameters.
-/

namespace MazeGame

/-- A 2-D vector of JS numbers: positions and directions `{x, y}`. -/
structure Vec2 where
  x : ℚ
  y : ℚ
deriving DecidableEq, Repr

/-- Canvas dimensions as returned by `CanvasManager.getDimensions()`. -/
structure Dims where
  width : ℚ
  height : ℚ
deriving DecidableEq, Repr

/-- Entity bounds as returned by `getBounds()` in player.js / ghost.js. -/
structure Bounds where
  left : ℚ
  right : ℚ
  top : ℚ
  bottom : ℚ
deriving DecidableEq, Repr

/-- collisionManager `checkCollision(bounds1, bounds2)` (bounds revision):
inclusive axis-aligned bounding-box test. -/
def checkCollision (bounds1 bounds2 : Bounds) : Bool :=
  decide (bounds1.left ≤ bounds2.right) &&
  decide (bounds1.right ≥ bounds2.left) &&
  decide (bounds1.top ≤ bounds2.bottom) &&
  decide (bounds1.bottom ≥ bounds2.top)

/-- The maze object stored in `gameState.maze` by `initializeMaze`:
a grid of cells (1 = wall, 0 = path), the pixel size of a cell and the
pixel offsets centering the grid in the canvas. -/
structure Maze where
  grid : List (List ℕ)
  cellSize : ℚ
  offsetX : ℚ
  offsetY : ℚ
deriving DecidableEq, Repr

/-- Length of `grid[0]` (`grid[0].length` in the source; `0` for an empty
grid, which the source never reaches because the row-bound check
short-circuits first). -/
def gridRowLen (grid : List (List ℕ)) : ℕ :=
  (grid.headD []).length

/-- Cell lookup `grid[row][col]` for indices already known to be in
bounds (out-of-range reads default to `0`). -/
def cellAt (grid : List (List ℕ)) (row col : ℕ) : ℕ :=
  (grid.getD row []).getD col 0

/-- The body of the corner loop in `isValidMove`: a sampled pixel point is
rejected iff its cell indices (`Math.floor((p - offset) / cellSize)`) are
inside the grid and the cell holds a wall (`=== 1`). -/
def isWallAtPoint (m : Maze) (p : Vec2) : Bool :=
  let gridCol : ℤ := ⌊(p.x - m.offsetX) / m.cellSize⌋
  let gridRow : ℤ := ⌊(p.y - m.offsetY) / m.cellSize⌋
  decide (0 ≤ gridRow) && decide (gridRow < (m.grid.length : ℤ)) &&
  decide (0 ≤ gridCol) && decide (gridCol < (gridRowLen m.grid : ℤ)) &&
  (cellAt m.grid gridRow.toNat gridCol.toNat == 1)

/-- The 8 sampled points of a bounding box in the source's push order:
4 corners, then the 4 edge midpoints. -/
def samplePoints (left right top bottom : ℚ) : List Vec2 :=
  [⟨left, top⟩, ⟨right, top⟩, ⟨left, bottom⟩, ⟨right, bottom⟩,
   ⟨(left + right) / 2, top⟩, ⟨(left + right) / 2, bottom⟩,
   ⟨left, (top + bottom) / 2⟩, ⟨right, (top + bottom) / 2⟩]

/-- gameEngine `isValidMove(position, direction, distance)` (8-point
revision).  `maze` is `gameState.maze`; `playerDims` is
`gameState.player`'s width/height (`12` fallback when the player is
absent).  The unused `buffer` local of the source is omitted.  Returns
`true` immediately when no maze has been built. -/
def isValidMove (dims : Dims) (maze : Option Maze) (playerDims : Option (ℚ × ℚ))
    (position direction : Vec2) (distance : ℚ) : Bool :=
  match maze with
  | none => true
  | some m =>
    let entityWidth := match playerDims with | some pd => pd.1 | none => 12
    let entityHeight := match playerDims with | some pd => pd.2 | none => 12
    let newX := position.x + direction.x * distance
    let newY := position.y + direction.y * distance
    let corners := samplePoints newX (newX + entityWidth) newY (newY + entityHeight)
    if corners.any (fun c => isWallAtPoint m c) then false
    else
      decide (newX ≥ 0) && decide (newX + entityWidth ≤ dims.width) &&
      decide (newY ≥ 0) && decide (newY + entityHeight ≤ dims.height)

/-- gameEngine `isEntityInValidPosition(entity)`: the entity's center
must map to an in-bounds path cell; `true` when no maze exists. -/
def isEntityInValidPosition (maze : Option Maze) (x y width height : ℚ) : Bool :=
  match maze with
  | none => true
  | some m =>
    let centerX := x + width / 2
    let centerY := y + height / 2
    let gridCol : ℤ := ⌊(centerX - m.offsetX) / m.cellSize⌋
    let gridRow : ℤ := ⌊(centerY - m.offsetY) / m.cellSize⌋
    if gridRow < 0 ∨ (m.grid.length : ℤ) ≤ gridRow ∨
       gridCol < 0 ∨ (gridRowLen m.grid : ℤ) ≤ gridCol then false
    else cellAt m.grid gridRow.toNat gridCol.toNat == 0

/-- Player entity state (player.js): position, scaled sprite size, speed
and the cosmetic mouth animation state. -/
structure Player where
  x : ℚ
  y : ℚ
  width : ℚ
  height : ℚ
  speed : ℚ
  mouthOpen : Bool
  animationTimer : ℚ
  animationInterval : ℚ
deriving DecidableEq, Repr

/-- Ghost entity state (ghost.js): position, scaled sprite size, speed,
heading and the direction-change timer.  `baseSpeed` is the
difficulty-independent speed that the engine's `increaseDifficulty`
scales from. -/
structure Ghost where
  x : ℚ
  y : ℚ
  width : ℚ
  height : ℚ
  speed : ℚ
  baseSpeed : ℚ
  direction : Vec2
  directionTimer : ℚ
  directionChangeInterval : ℚ
deriving DecidableEq, Repr

/-- player.js `getBounds()`: visual box shrunk inward by the
`hitboxReduction` of 2 pixels on each side. -/
def playerGetBounds (p : Player) : Bounds :=
  ⟨p.x + 2, p.x + p.width - 2, p.y + 2, p.y + p.height - 2⟩

/-- ghost.js `getBounds()`: same 2-pixel inward hitbox shrink. -/
def ghostGetBounds (g : Ghost) : Bounds :=
  ⟨g.x + 2, g.x + g.width - 2, g.y + 2, g.y + g.height - 2⟩

/-- collisionManager `checkPlayerGhostCollisions(player, ghosts)`
(bounds revision): `ghosts.find(...)` — the first ghost in iteration
order whose bounds overlap the player's, or `undefined` (`none`). -/
def checkPlayerGhostCollisions (player : Player) (ghosts : List Ghost) : Option Ghost :=
  let playerBounds := playerGetBounds player
  ghosts.find? (fun ghost => checkCollision playerBounds (ghostGetBounds ghost))

/-- player.js `update(direction, deltaTime)`, with `window.GameEngine`
present (the configuration of the running game): deltaTime is clamped at
50 ms, movement is attempted per axis through `isValidMove`, the result
is clamped into canvas bounds, and the mouth animation timer advances. -/
def playerUpdate (dims : Dims) (maze : Option Maze) (p : Player)
    (direction : Vec2) (deltaTime : ℚ) : Player :=
  let normalizedDeltaTime := min deltaTime 50
  let distance := p.speed * (normalizedDeltaTime / 1000)
  let pd : Option (ℚ × ℚ) := some (p.width, p.height)
  let x1 :=
    if (direction.x ≠ 0 ∨ direction.y ≠ 0) ∧ direction.x ≠ 0 ∧
        isValidMove dims maze pd ⟨p.x, p.y⟩ ⟨direction.x, 0⟩ distance = true
    then p.x + direction.x * distance else p.x
  let y1 :=
    if (direction.x ≠ 0 ∨ direction.y ≠ 0) ∧ direction.y ≠ 0 ∧
        isValidMove dims maze pd ⟨x1, p.y⟩ ⟨0, direction.y⟩ distance = true
    then p.y + direction.y * distance else p.y
  let x2 := max 0 (min x1 (dims.width - p.width))
  let y2 := max 0 (min y1 (dims.height - p.height))
  let timer := p.animationTimer + normalizedDeltaTime
  if timer ≥ p.animationInterval then
    { p with x := x2, y := y2, mouthOpen := !p.mouthOpen, animationTimer := 0 }
  else
    { p with x := x2, y := y2, animationTimer := timer }

/-- The candidate list `possibleDirections` of ghost.js
`chooseNewDirection`: right, left, down, up. -/
def possibleDirections : List Vec2 :=
  [⟨1, 0⟩, ⟨-1, 0⟩, ⟨0, 1⟩, ⟨0, -1⟩]

/-- `Math.floor(r * len)` as a list index (`r` is the `Math.random()`
draw). -/
def randIndex (r : ℚ) (len : ℕ) : ℕ :=
  (⌊r * (len : ℚ)⌋).toNat

/-- ghost.js `chooseNewDirection()`, with `window.GameEngine` present:
keep the candidates that are not the exact reverse of the current
direction and that pass `isValidMove` with the small probe distance
`speed * 0.05`; pick uniformly among them, falling back to all four
directions when none qualifies.  `r` is the single `Math.random()` draw. -/
def chooseNewDirection (dims : Dims) (maze : Option Maze)
    (playerDims : Option (ℚ × ℚ)) (g : Ghost) (r : ℚ) : Vec2 :=
  let currentDirection := g.direction
  let availableDirections := possibleDirections.filter (fun dir =>
    decide (¬(dir.x = -currentDirection.x ∧ dir.y = -currentDirection.y)) &&
    isValidMove dims maze playerDims ⟨g.x, g.y⟩ dir (g.speed * (5 / 100)))
  if availableDirections.length > 0 then
    availableDirections.getD (randIndex r availableDirections.length) ⟨0, 0⟩
  else
    possibleDirections.getD (randIndex r possibleDirections.length) ⟨0, 0⟩

/-- ghost.js constructor (given the opaque image's dimensions and the
device profile): scaled size, speed 150, direction `{0,0}` immediately
replaced by `chooseNewDirection` (one random draw `r`). -/
def mkGhost (dims : Dims) (maze : Option Maze) (playerDims : Option (ℚ × ℚ))
    (isMobile : Bool) (screenWidth : ℚ) (imageW imageH : ℚ)
    (position : Vec2) (r : ℚ) : Ghost :=
  let scaleFactor : ℚ :=
    if isMobile then (if screenWidth < 400 then 1/10 else 12/100) else 3/16
  let g : Ghost :=
    { x := position.x, y := position.y,
      width := imageW * scaleFactor, height := imageH * scaleFactor,
      speed := 150, baseSpeed := 150,
      direction := ⟨0, 0⟩, directionTimer := 0,
      directionChangeInterval := 2000 }
  { g with direction := chooseNewDirection dims maze playerDims g r }

/-- ghost.js `update(deltaTime)`, with `window.GameEngine` present:
advance the direction timer, attempt the full-vector move through
`isValidMove`, re-verify the landing cell with
`isEntityInValidPosition` and roll back on failure, change direction on
a blocked move, and change direction again on the jittered timeout or
when the frame's displacement is (numerically) nil.  `r` is the random
source and `k` the cursor of the next unconsumed draw; returns the
updated ghost and cursor. -/
def ghostUpdate (dims : Dims) (maze : Option Maze) (playerDims : Option (ℚ × ℚ))
    (g0 : Ghost) (deltaTime : ℚ) (r : ℕ → ℚ) (k : ℕ) : Ghost × ℕ :=
  let g := { g0 with directionTimer := g0.directionTimer + deltaTime }
  let dx := g.direction.x * g.speed * (deltaTime / 1000)
  let dy := g.direction.y * g.speed * (deltaTime / 1000)
  let newX := g.x + dx
  let newY := g.y + dy
  let canMove0 := isValidMove dims maze playerDims ⟨g.x, g.y⟩ g.direction
    (g.speed * (deltaTime / 1000))
  let moved :=
    if canMove0 then
      let gm := { g with x := newX, y := newY }
      if isEntityInValidPosition maze gm.x gm.y gm.width gm.height then (gm, true)
      else ({ gm with x := gm.x - dx, y := gm.y - dy }, false)
    else (g, false)
  let afterBlock : Ghost × ℕ :=
    if moved.2 = false then
      ({ moved.1 with
          direction := chooseNewDirection dims maze playerDims moved.1 (r k),
          directionTimer := 0 }, k + 1)
    else (moved.1, k)
  let g2 := afterBlock.1
  let k2 := afterBlock.2
  let jitter := r k2
  let shouldChangeDirection :=
    decide (g2.directionTimer > 2000 + jitter * 2000) ||
    (decide (|dx| < 1/100) && decide (|dy| < 1/100))
  if shouldChangeDirection then
    ({ g2 with
        direction := chooseNewDirection dims maze playerDims g2 (r (k2 + 1)),
        directionTimer := 0 }, k2 + 2)
  else (g2, k2 + 1)

/-- Device/host environment the engine reads: canvas dimensions, the
mobile-device flag, the screen width used by the entity constructors,
and the dimensions of the (opaque) ghost image asset. -/
structure Env where
  dims : Dims
  isMobile : Bool
  screenWidth : ℚ
  ghostImgW : ℚ
  ghostImgH : ℚ
deriving DecidableEq, Repr

/-- An element of the list built by gameEngine `getMazePositions`.
The lenient fallback pass pushes objects without a `safetyScore`
property; those are given score `0` here (the field is only read by the
sort of the strict pass). -/
structure MazePos where
  x : ℚ
  y : ℚ
  row : ℕ
  col : ℕ
  safetyScore : ℕ
deriving DecidableEq, Repr

instance : Inhabited MazePos := ⟨⟨0, 0, 0, 0, 0⟩⟩

/-- gameEngine `isPositionInsideValidPath(row, col, grid)`: a path cell
with at least one orthogonal path neighbour. -/
def isPositionInsideValidPath (grid : List (List ℕ)) (row col : ℕ) : Bool :=
  if cellAt grid row col ≠ 0 then false
  else
    (decide (0 < row) && (cellAt grid (row - 1) col == 0)) ||
    (decide (row < grid.length - 1) && (cellAt grid (row + 1) col == 0)) ||
    (decide (0 < col) && (cellAt grid row (col - 1) == 0)) ||
    (decide (col < gridRowLen grid - 1) && (cellAt grid row (col + 1) == 0))

/-- The per-cell openness score of the strict pass of
`getMazePositions`: the number of the 4 orthogonal neighbours that are
not walls. -/
def safetyScoreAt (grid : List (List ℕ)) (row col : ℕ) : ℕ :=
  (if cellAt grid (row - 1) col = 1 then 0 else 1) +
  (if cellAt grid (row + 1) col = 1 then 0 else 1) +
  (if cellAt grid row (col + 1) = 1 then 0 else 1) +
  (if cellAt grid row (col - 1) = 1 then 0 else 1)

/-- The strict pass of `getMazePositions`: interior path cells whose
openness score meets the device-dependent minimum, in row-major scan
order, positioned so a nominal entity is centred in the cell. -/
def strictMazePositions (isMobile : Bool) (m : Maze) : List MazePos :=
  let entitySize : ℚ := if isMobile then 8 else 12
  let minSafetyScore : ℕ := if isMobile then 4 else 3
  (List.range m.grid.length).flatMap (fun row =>
    (List.range (m.grid.getD row []).length).filterMap (fun col =>
      if 1 ≤ row ∧ row < m.grid.length - 1 ∧
         1 ≤ col ∧ col < (m.grid.getD row []).length - 1 ∧
         cellAt m.grid row col = 0 ∧
         minSafetyScore ≤ safetyScoreAt m.grid row col then
        some { x := m.offsetX + (col : ℚ) * m.cellSize + m.cellSize / 2 - entitySize / 2,
               y := m.offsetY + (row : ℚ) * m.cellSize + m.cellSize / 2 - entitySize / 2,
               row := row, col := col,
               safetyScore := safetyScoreAt m.grid row col }
      else none))

/-- The lenient fallback pass of `getMazePositions`: any path cell with
at least one path neighbour. -/
def lenientMazePositions (isMobile : Bool) (m : Maze) : List MazePos :=
  let entitySize : ℚ := if isMobile then 8 else 12
  (List.range m.grid.length).flatMap (fun row =>
    (List.range (m.grid.getD row []).length).filterMap (fun col =>
      if cellAt m.grid row col = 0 ∧ isPositionInsideValidPath m.grid row col = true then
        some { x := m.offsetX + (col : ℚ) * m.cellSize + m.cellSize / 2 - entitySize / 2,
               y := m.offsetY + (row : ℚ) * m.cellSize + m.cellSize / 2 - entitySize / 2,
               row := row, col := col, safetyScore := 0 }
      else none))

/-- gameEngine `getMazePositions(dimensions)` (the `dimensions`
parameter is unused by its body): strict pass sorted by descending
safety score (stable, like ES2019 `Array.prototype.sort`), with the
lenient pass as fallback; `[]` when no maze exists. -/
def getMazePositions (env : Env) (maze : Option Maze) : List MazePos :=
  match maze with
  | none => []
  | some m =>
    let strict := strictMazePositions env.isMobile m
    if strict.length > 0 then
      List.mergeSort strict (fun a b => decide (b.safetyScore ≤ a.safetyScore))
    else lenientMazePositions env.isMobile m

/-- JS `Math.round` (round half toward positive infinity). -/
def jsRound (q : ℚ) : ℤ := ⌊q + 1 / 2⌋

/-- The single module-level `gameState` of the game engine, restricted
to the fields the simulation core reads or writes. -/
structure GameState where
  isRunning : Bool
  isGameOver : Bool
  score : ℚ
  lastFrameTime : ℚ
  difficultyLevel : ℤ
  difficultyTimer : ℚ
  difficultyInterval : ℚ
  gracePeriod : ℚ
  gracePeriodMax : ℚ
  maze : Option Maze
  player : Player
  ghosts : List Ghost
  colorChangeTimer : ℚ
  currentColorIndex : ℕ
  colorChangeInterval : ℚ
deriving DecidableEq, Repr

/-- The maze-color rotation block at the top of `gameLoop` (6 colors). -/
def colorStep (s : GameState) (ndt : ℚ) : GameState :=
  let t := s.colorChangeTimer + ndt
  if t > s.colorChangeInterval then
    { s with currentColorIndex := (s.currentColorIndex + 1) % 6, colorChangeTimer := 0 }
  else { s with colorChangeTimer := t }

/-- The entity-update phase of `gameLoop`: update the player, then each
ghost in list order (teleporting a ghost that landed invalid to a fresh
maze position when this frame validates positions), then re-validate the
player the same way.  Returns the updated player, ghosts and random
cursor. -/
def entitiesCore (env : Env) (maze : Option Maze) (player : Player)
    (ghosts : List Ghost) (ndt : ℚ) (direction : Vec2)
    (shouldValidate : Bool) (r : ℕ → ℚ) (k : ℕ) :
    Player × List Ghost × ℕ :=
  let p1 := playerUpdate env.dims maze player direction ndt
  let gs := ghosts.foldl (fun (acc : List Ghost × ℕ) (g : Ghost) =>
    let gu := ghostUpdate env.dims maze (some (p1.width, p1.height)) g ndt r acc.2
    let fixed :=
      if shouldValidate && !(isEntityInValidPosition maze gu.1.x gu.1.y gu.1.width gu.1.height) then
        let validPositions := getMazePositions env maze
        if validPositions.length > 0 then
          let np := validPositions.getD (randIndex (r gu.2) validPositions.length) default
          ({ gu.1 with x := np.x, y := np.y }, gu.2 + 1)
        else gu
      else gu
    (acc.1 ++ [fixed.1], fixed.2)) ([], k)
  let pf :=
    if shouldValidate && !(isEntityInValidPosition maze p1.x p1.y p1.width p1.height) then
      let validPositions := getMazePositions env maze
      if validPositions.length > 0 then
        let np := validPositions.getD (randIndex (r gs.2) validPositions.length) default
        ({ p1 with x := np.x, y := np.y }, gs.2 + 1)
      else (p1, gs.2)
    else (p1, gs.2)
  (pf.1, gs.1, pf.2)

/-- The grace-period block of `gameLoop`: while `gracePeriod > 0` it is
decremented (clamped at 0) and no collision check runs; otherwise the
collision detector runs and a hit triggers `gameOver` (sets
`isGameOver`, stops the loop). -/
def graceStep (s : GameState) (ndt : ℚ) : GameState :=
  if s.gracePeriod > 0 then
    let gp := s.gracePeriod - ndt
    if gp ≤ 0 then { s with gracePeriod := 0 } else { s with gracePeriod := gp }
  else
    match checkPlayerGhostCollisions s.player s.ghosts with
    | some _ => { s with isGameOver := true, isRunning := false }
    | none => s

/-- gameEngine `addGhost()`: pick a ghost type (one random draw), pick a
maze position preferring those farther than 150 px from the player (the
source compares `Math.sqrt(dx² + dy²) > 150`; the equivalent squared
comparison is used to stay in `ℚ`), construct the ghost and scale its
speed to the current difficulty. -/
def addGhost (env : Env) (s : GameState) (r : ℕ → ℚ) (k : ℕ) : GameState × ℕ :=
  let k1 := k + 1
  let validPositions := getMazePositions env s.maze
  if validPositions.length > 0 then
    let safePositions := validPositions.filter (fun pos =>
      decide ((pos.x - s.player.x) ^ 2 + (pos.y - s.player.y) ^ 2 > 150 ^ 2))
    let positionsToUse := if safePositions.length > 0 then safePositions else validPositions
    let position := positionsToUse.getD (randIndex (r k1) positionsToUse.length) default
    let g0 := mkGhost env.dims s.maze (some (s.player.width, s.player.height))
      env.isMobile env.screenWidth env.ghostImgW env.ghostImgH
      ⟨position.x, position.y⟩ (r (k1 + 1))
    let newGhost := { g0 with speed := g0.baseSpeed + (((s.difficultyLevel - 1) * 20 : ℤ) : ℚ) }
    ({ s with ghosts := s.ghosts ++ [newGhost] }, k1 + 2)
  else (s, k1)

/-- gameEngine `validateEntityPositions()`: teleport the player and then
each ghost that sits in an invalid cell to a fresh safe position
(consuming it), parking a ghost off-screen at (-100, -100) when the safe
positions run out. -/
def validateEntityPositions (env : Env) (s : GameState) (r : ℕ → ℚ) (k : ℕ) :
    GameState × ℕ :=
  match s.maze with
  | none => (s, k)
  | some _ =>
    let validPositions := getMazePositions env s.maze
    if validPositions.length = 0 then (s, k)
    else
      let pfix : Player × List MazePos × ℕ :=
        if !(isEntityInValidPosition s.maze s.player.x s.player.y s.player.width s.player.height) then
          let i := randIndex (r k) validPositions.length
          let np := validPositions.getD i default
          ({ s.player with x := np.x, y := np.y }, validPositions.eraseIdx i, k + 1)
        else (s.player, validPositions, k)
      let gfix := s.ghosts.foldl (fun (acc : List Ghost × List MazePos × ℕ) (g : Ghost) =>
        if !(isEntityInValidPosition s.maze g.x g.y g.width g.height) then
          if acc.2.1.length > 0 then
            let i := randIndex (r acc.2.2) acc.2.1.length
            let np := acc.2.1.getD i default
            (acc.1 ++ [{ g with x := np.x, y := np.y }], acc.2.1.eraseIdx i, acc.2.2 + 1)
          else (acc.1 ++ [{ g with x := -100, y := -100 }], acc.2.1, acc.2.2)
        else (acc.1 ++ [g], acc.2.1, acc.2.2)) ([], pfix.2.1, pfix.2.2)
      ({ s with player := pfix.1, ghosts := gfix.1 }, gfix.2.2)

/-- gameEngine `increaseDifficulty()`: bump the level, add a ghost on
even levels below the cap of 8, rescale every ghost's speed from its
base speed, grant a renewed 1500 ms grace period, and re-validate all
entity positions. -/
def increaseDifficulty (env : Env) (s : GameState) (r : ℕ → ℚ) (k : ℕ) :
    GameState × ℕ :=
  let s1 := { s with difficultyLevel := s.difficultyLevel + 1 }
  let ag : GameState × ℕ := if s1.difficultyLevel % 2 = 0 ∧ s1.ghosts.length < 8
    then addGhost env s1 r k else (s1, k)
  let s2 := { ag.1 with ghosts := ag.1.ghosts.map (fun (g : Ghost) =>
    { g with speed := g.baseSpeed + (((ag.1.difficultyLevel - 1) * 20 : ℤ) : ℚ) }) }
  let s3 := { s2 with gracePeriod := 1500, gracePeriodMax := 1500 }
  validateEntityPositions env s3 r ag.2

/-- The difficulty-timer block of `gameLoop`: accumulate the normalized
deltaTime and fire `increaseDifficulty` (resetting the timer) when it
meets the interval. -/
def difficultyStep (env : Env) (s : GameState) (ndt : ℚ) (r : ℕ → ℚ) (k : ℕ) :
    GameState × ℕ :=
  let s1 := { s with difficultyTimer := s.difficultyTimer + ndt }
  if s1.difficultyTimer ≥ s1.difficultyInterval then
    let inc := increaseDifficulty env s1 r k
    ({ inc.1 with difficultyTimer := 0 }, inc.2)
  else (s1, k)

/-- The score block of `gameLoop`: a larger, difficulty-scaled increment
when the input direction is non-zero, a smaller one when stationary. -/
def scoreStep (s : GameState) (direction : Vec2) (ndt : ℚ) : GameState :=
  if direction.x ≠ 0 ∨ direction.y ≠ 0 then
    { s with score := s.score + ((jsRound (ndt / 10) : ℤ) : ℚ) * (s.difficultyLevel : ℚ) }
  else
    { s with score := s.score + ((jsRound (ndt / 50) : ℤ) : ℚ) }

/-- gameEngine `gameLoop(timestamp)` as a state transition (rendering
and DOM side effects omitted): bail out when the loop is stopped,
compute the clamped deltaTime, rotate the maze color, update entities,
handle grace period / collision, advance difficulty, and update the
score.  `direction` is the polled input and `r` the injected random
source (`r 0` is the frame's position-validation draw). -/
def gameLoopFrame (env : Env) (s : GameState) (timestamp : ℚ)
    (direction : Vec2) (r : ℕ → ℚ) : GameState :=
  if s.isRunning = false then s
  else
    let deltaTime := timestamp - (if s.lastFrameTime = 0 then timestamp else s.lastFrameTime)
    let s1 := { s with lastFrameTime := timestamp }
    let normalizedDeltaTime := min deltaTime 50
    let s2 := colorStep s1 normalizedDeltaTime
    let shouldValidate := decide (r 0 < 5 / 100)
    let ec := entitiesCore env s2.maze s2.player s2.ghosts normalizedDeltaTime
      direction shouldValidate r 1
    let s3 := { s2 with player := ec.1, ghosts := ec.2.1 }
    let s4 := graceStep s3 normalizedDeltaTime
    let d := difficultyStep env s4 normalizedDeltaTime r ec.2.2
    scoreStep d.1 direction normalizedDeltaTime

/-! ## Helper lemmas -/

theorem checkCollision_eq_true_iff (A B : Bounds) :
    checkCollision A B = true ↔
      (A.left ≤ B.right ∧ A.right ≥ B.left ∧ A.top ≤ B.bottom ∧ A.bottom ≥ B.top) := by
  simp [checkCollision, and_assoc]

theorem find?_eq_get_of_first {α : Type} (p : α → Bool) (l : List α) (i : ℕ)
    (hi : i < l.length) (hp : p (l.get ⟨i, hi⟩) = true)
    (hmin : ∀ j (hj : j < i), p (l.get ⟨j, Nat.lt_trans hj hi⟩) = false) :
    l.find? p = some (l.get ⟨i, hi⟩) := by
  induction l generalizing i with
  | nil => simp at hi
  | cons a l ih =>
    cases i with
    | zero =>
      simp only [List.get] at hp
      simp [List.find?, hp]
    | succ n =>
      have ha : p a = false := hmin 0 (Nat.succ_pos n)
      simp only [List.find?, ha]
      have hn : n < l.length := Nat.lt_of_succ_lt_succ hi
      have hp2 : p (l.get ⟨n, hn⟩) = true := hp
      have hmin2 : ∀ j (hj : j < n), p (l.get ⟨j, Nat.lt_trans hj hn⟩) = false :=
        fun j hj => hmin (j + 1) (Nat.succ_lt_succ hj)
      exact ih n hn hp2 hmin2

theorem randIndex_lt {r : ℚ} (len : ℕ) (hlen : 0 < len) (h0 : 0 ≤ r) (h1 : r < 1) :
    randIndex r len < len := by
  unfold randIndex
  have hfl : ⌊r * (len : ℚ)⌋ < (len : ℤ) := by
    apply Int.floor_lt.mpr
    push_cast
    calc r * (len : ℚ) < 1 * (len : ℚ) := by
          apply mul_lt_mul_of_pos_right h1
          exact_mod_cast hlen
    _ = (len : ℚ) := one_mul _
  have hge : (0 : ℤ) ≤ ⌊r * (len : ℚ)⌋ :=
    Int.floor_nonneg.mpr (mul_nonneg h0 (by positivity))
  omega

theorem getD_mem_of_lt {α : Type} (l : List α) (n : ℕ) (d : α) (h : n < l.length) :
    l.getD n d ∈ l := by
  rw [List.getD_eq_getElem l d h]
  exact List.getElem_mem h

theorem isValidMove_some_iff (dims : Dims) (m : Maze) (w h : ℚ)
    (position direction : Vec2) (distance : ℚ) :
    isValidMove dims (some m) (some (w, h)) position direction distance = true ↔
      ((∀ c ∈ samplePoints (position.x + direction.x * distance)
          (position.x + direction.x * distance + w)
          (position.y + direction.y * distance)
          (position.y + direction.y * distance + h), isWallAtPoint m c = false) ∧
        0 ≤ position.x + direction.x * distance ∧
        position.x + direction.x * distance + w ≤ dims.width ∧
        0 ≤ position.y + direction.y * distance ∧
        position.y + direction.y * distance + h ≤ dims.height) := by
  simp only [isValidMove]
  split
  next hany =>
    rw [List.any_eq_true] at hany
    obtain ⟨c, hc, hw⟩ := hany
    constructor
    · intro hfalse
      exact absurd hfalse (by simp)
    · rintro ⟨hall, -⟩
      rw [hall c hc] at hw
      exact absurd hw (by simp)
  next hany =>
    have hall : ∀ c ∈ samplePoints (position.x + direction.x * distance)
        (position.x + direction.x * distance + w)
        (position.y + direction.y * distance)
        (position.y + direction.y * distance + h), isWallAtPoint m c = false := by
      intro c hc
      by_contra hcc
      exact hany (List.any_eq_true.mpr ⟨c, hc, by simpa using hcc⟩)
    simp only [Bool.and_eq_true, decide_eq_true_eq, ge_iff_le]
    constructor
    · rintro ⟨⟨⟨h1, h2⟩, h3⟩, h4⟩
      exact ⟨hall, h1, h2, h3, h4⟩
    · rintro ⟨-, h1, h2, h3, h4⟩
      exact ⟨⟨⟨h1, h2⟩, h3⟩, h4⟩

/-! ## Claim theorems -/

/-- Claim C1: with a built maze, `isValidMove` builds the bounding box of
the moving entity (width/height taken from the tracked player entity —
the mover in the player's case — not a fixed size) at the candidate new
top-left position, samples its 4 corners and 4 edge midpoints, and
returns true iff no sampled point lies in a WALL cell and the box stays
inside the canvas on all sides; in particular any move whose box hits a
wall at one of the 8 sampled points is rejected. -/
theorem isValidMove_eight_point_contract (dims : Dims) (m : Maze) (w h : ℚ)
    (position direction : Vec2) (distance : ℚ) :
    (isValidMove dims (some m) (some (w, h)) position direction distance = true ↔
      ((∀ c ∈ samplePoints (position.x + direction.x * distance)
          (position.x + direction.x * distance + w)
          (position.y + direction.y * distance)
          (position.y + direction.y * distance + h), isWallAtPoint m c = false) ∧
        0 ≤ position.x + direction.x * distance ∧
        position.x + direction.x * distance + w ≤ dims.width ∧
        0 ≤ position.y + direction.y * distance ∧
        position.y + direction.y * distance + h ≤ dims.height)) ∧
    ((∃ c ∈ samplePoints (position.x + direction.x * distance)
        (position.x + direction.x * distance + w)
        (position.y + direction.y * distance)
        (position.y + direction.y * distance + h), isWallAtPoint m c = true) →
      isValidMove dims (some m) (some (w, h)) position direction distance = false) := by
  refine ⟨isValidMove_some_iff dims m w h position direction distance, ?_⟩
  rintro ⟨c, hc, hw⟩
  rw [Bool.eq_false_iff]
  intro htrue
  obtain ⟨hall, -⟩ :=
    (isValidMove_some_iff dims m w h position direction distance).mp htrue
  rw [hall c hc] at hw
  exact absurd hw (by simp)

/-- Witness for C1: a 1-cell all-wall maze rejects a (degenerate) move
whose sampled points all land in the wall cell. -/
theorem isValidMove_eight_point_contract_witness :
    isValidMove ⟨600, 400⟩ (some ⟨[[1]], 100, 0, 0⟩) (some (0, 0)) ⟨0, 0⟩ ⟨0, 0⟩ 0 = false := by
  apply (isValidMove_eight_point_contract ⟨600, 400⟩ ⟨[[1]], 100, 0, 0⟩ 0 0 ⟨0, 0⟩ ⟨0, 0⟩ 0).2
  refine ⟨⟨0 + 0 * 0, 0 + 0 * 0⟩, ?_, ?_⟩
  · simp [samplePoints]
  · unfold isWallAtPoint cellAt gridRowLen
    norm_num

/-- Claim C7: the pairwise collision test is the inclusive AABB formula
(left ≤ right comparisons on both axes); hence it is symmetric, boxes
touching exactly at an edge collide, and boxes separated by a positive
gap on some axis do not collide. -/
theorem checkCollision_contract :
    (∀ A B : Bounds, checkCollision A B = true ↔
      (A.left ≤ B.right ∧ A.right ≥ B.left ∧ A.top ≤ B.bottom ∧ A.bottom ≥ B.top)) ∧
    (∀ A B : Bounds, checkCollision A B = checkCollision B A) ∧
    (∀ A B : Bounds, A.right = B.left → A.left ≤ B.right →
      A.top ≤ B.bottom → A.bottom ≥ B.top → checkCollision A B = true) ∧
    (∀ A B : Bounds,
      (A.right < B.left ∨ B.right < A.left ∨ A.bottom < B.top ∨ B.bottom < A.top) →
      checkCollision A B = false) := by
  refine ⟨checkCollision_eq_true_iff, ?_, ?_, ?_⟩
  · intro A B
    simp only [checkCollision, ge_iff_le]
    rw [Bool.and_comm (decide (A.left ≤ B.right)) (decide (B.left ≤ A.right)),
      Bool.and_assoc, Bool.and_assoc,
      Bool.and_comm (decide (A.top ≤ B.bottom)) (decide (B.top ≤ A.bottom))]
    simp [Bool.and_assoc]
  · intro A B he h1 h2 h3
    exact (checkCollision_eq_true_iff A B).mpr ⟨h1, le_of_eq he.symm, h2, h3⟩
  · intro A B h
    rw [Bool.eq_false_iff]
    intro hc
    obtain ⟨h1, h2, h3, h4⟩ := (checkCollision_eq_true_iff A B).mp hc
    rcases h with h | h | h | h <;> linarith

/-- Witness for C7: two boxes touching at an edge collide; pushing the
second box 1 px further apart removes the collision (via the gap part of
the contract). -/
theorem checkCollision_contract_witness :
    checkCollision ⟨0, 10, 0, 10⟩ ⟨10, 20, 0, 10⟩ = true ∧
    checkCollision ⟨0, 10, 0, 10⟩ ⟨11, 20, 0, 10⟩ = false ∧
    checkCollision ⟨0, 10, 0, 10⟩ ⟨5, 20, 3, 12⟩ = checkCollision ⟨5, 20, 3, 12⟩ ⟨0, 10, 0, 10⟩ := by
  refine ⟨?_, ?_, ?_⟩
  · exact checkCollision_contract.2.2.1 ⟨0, 10, 0, 10⟩ ⟨10, 20, 0, 10⟩ rfl
      (by norm_num) (by norm_num) (by norm_num)
  · exact checkCollision_contract.2.2.2 ⟨0, 10, 0, 10⟩ ⟨11, 20, 0, 10⟩
      (Or.inl (by norm_num))
  · exact checkCollision_contract.2.1 ⟨0, 10, 0, 10⟩ ⟨5, 20, 3, 12⟩

/-- Claim C9: with no maze built (`gameState.maze` null), every spatial
query treats positions as valid — `isValidMove` returns true for every
position, direction and distance, and `isEntityInValidPosition` returns
true for every entity. -/
theorem no_maze_spatial_queries_always_valid :
    (∀ (dims : Dims) (playerDims : Option (ℚ × ℚ)) (position direction : Vec2)
      (distance : ℚ), isValidMove dims none playerDims position direction distance = true) ∧
    (∀ x y width height : ℚ, isEntityInValidPosition none x y width height = true) :=
  ⟨fun _ _ _ _ _ => rfl, fun _ _ _ _ => rfl⟩

/-- Claim C8: `checkPlayerGhostCollisions` returns the first ghost in
iteration order whose bounds overlap the player's, and none when no
ghost overlaps — a first-match policy returning the enemy itself. -/
theorem checkPlayerGhostCollisions_first_match :
    (∀ (player : Player) (ghosts : List Ghost),
      checkPlayerGhostCollisions player ghosts = none ↔
        ∀ g ∈ ghosts, checkCollision (playerGetBounds player) (ghostGetBounds g) = false) ∧
    (∀ (player : Player) (ghosts : List Ghost) (i : ℕ) (hi : i < ghosts.length),
      checkCollision (playerGetBounds player) (ghostGetBounds (ghosts.get ⟨i, hi⟩)) = true →
      (∀ j (hj : j < i),
        checkCollision (playerGetBounds player)
          (ghostGetBounds (ghosts.get ⟨j, Nat.lt_trans hj hi⟩)) = false) →
      checkPlayerGhostCollisions player ghosts = some (ghosts.get ⟨i, hi⟩)) := by
  constructor
  · intro player ghosts
    unfold checkPlayerGhostCollisions
    rw [List.find?_eq_none]
    constructor
    · intro h g hg
      have := h g hg
      simpa using this
    · intro h g hg
      simp [h g hg]
  · intro player ghosts i hi hp hmin
    exact find?_eq_get_of_first _ ghosts i hi hp hmin

/-- Witness for C8: with a non-overlapping ghost first in the list and
an overlapping ghost second, the detector returns the second ghost. -/
theorem checkPlayerGhostCollisions_first_match_witness :
    checkPlayerGhostCollisions
      { x := 0, y := 0, width := 20, height := 20, speed := 200,
        mouthOpen := true, animationTimer := 0, animationInterval := 150 }
      [{ x := 100, y := 100, width := 20, height := 20, speed := 150, baseSpeed := 150,
         direction := ⟨1, 0⟩, directionTimer := 0, directionChangeInterval := 2000 },
       { x := 10, y := 10, width := 20, height := 20, speed := 150, baseSpeed := 150,
         direction := ⟨0, 1⟩, directionTimer := 0, directionChangeInterval := 2000 }] =
    some { x := 10, y := 10, width := 20, height := 20, speed := 150, baseSpeed := 150,
           direction := ⟨0, 1⟩, directionTimer := 0, directionChangeInterval := 2000 } := by
  have h := checkPlayerGhostCollisions_first_match.2
    { x := 0, y := 0, width := 20, height := 20, speed := 200,
      mouthOpen := true, animationTimer := 0, animationInterval := 150 }
    [{ x := 100, y := 100, width := 20, height := 20, speed := 150, baseSpeed := 150,
       direction := ⟨1, 0⟩, directionTimer := 0, directionChangeInterval := 2000 },
     { x := 10, y := 10, width := 20, height := 20, speed := 150, baseSpeed := 150,
       direction := ⟨0, 1⟩, directionTimer := 0, directionChangeInterval := 2000 }]
    1 (by norm_num)
    (by simp only [List.get, checkCollision, playerGetBounds, ghostGetBounds]
        norm_num)
    (by intro j hj
        have hj0 : j = 0 := by omega
        subst hj0
        simp only [List.get, checkCollision, playerGetBounds, ghostGetBounds]
        norm_num)
  simpa using h

theorem chooseNewDirection_mem (dims : Dims) (maze : Option Maze)
    (playerDims : Option (ℚ × ℚ)) (g : Ghost) {r : ℚ} (h0 : 0 ≤ r) (h1 : r < 1) :
    chooseNewDirection dims maze playerDims g r ∈ possibleDirections := by
  simp only [chooseNewDirection]
  split
  next hpos =>
    have hlt := randIndex_lt _ hpos h0 h1
    have hmem := getD_mem_of_lt _ _ ⟨0, 0⟩ hlt
    exact List.mem_of_mem_filter hmem
  next =>
    have hlt : randIndex r possibleDirections.length < possibleDirections.length :=
      randIndex_lt _ (by simp [possibleDirections]) h0 h1
    exact getD_mem_of_lt _ _ _ hlt

/-- Claim C6: whenever at least one non-reverse candidate direction is
walkable from the current position, `chooseNewDirection` never yields
the exact reverse of the prior direction, whatever the random source
value. -/
theorem chooseNewDirection_no_reversal (dims : Dims) (maze : Option Maze)
    (playerDims : Option (ℚ × ℚ)) (g : Ghost) (r : ℚ) (h0 : 0 ≤ r) (h1 : r < 1)
    (hw : ∃ dir ∈ possibleDirections,
      ¬(dir.x = -g.direction.x ∧ dir.y = -g.direction.y) ∧
      isValidMove dims maze playerDims ⟨g.x, g.y⟩ dir (g.speed * (5 / 100)) = true) :
    chooseNewDirection dims maze playerDims g r ≠
      ⟨-g.direction.x, -g.direction.y⟩ := by
  obtain ⟨dir, hdmem, hdrev, hdvalid⟩ := hw
  have hdir : dir ∈ possibleDirections.filter (fun dir =>
      decide (¬(dir.x = -g.direction.x ∧ dir.y = -g.direction.y)) &&
      isValidMove dims maze playerDims ⟨g.x, g.y⟩ dir (g.speed * (5 / 100))) := by
    rw [List.mem_filter]
    exact ⟨hdmem, by simp [hdrev, hdvalid]⟩
  have hpos : (possibleDirections.filter (fun dir =>
      decide (¬(dir.x = -g.direction.x ∧ dir.y = -g.direction.y)) &&
      isValidMove dims maze playerDims ⟨g.x, g.y⟩ dir (g.speed * (5 / 100)))).length > 0 :=
    List.length_pos.mpr (List.ne_nil_of_mem hdir)
  unfold chooseNewDirection
  rw [if_pos hpos]
  have hlt := randIndex_lt _ hpos h0 h1
  have hmem := getD_mem_of_lt _ _ (⟨0, 0⟩ : Vec2) hlt
  have hpred := (List.mem_filter.mp hmem).2
  simp only [Bool.and_eq_true, decide_eq_true_eq] at hpred
  intro heq
  apply hpred.1
  rw [heq]
  exact ⟨rfl, rfl⟩

/-- Witness for C6: ghost heading right with no maze (every probe
valid); the chosen direction is not the left reversal. -/
theorem chooseNewDirection_no_reversal_witness :
    chooseNewDirection ⟨600, 400⟩ none none
      { x := 100, y := 100, width := 20, height := 20, speed := 150, baseSpeed := 150,
        direction := ⟨1, 0⟩, directionTimer := 0, directionChangeInterval := 2000 }
      (1 / 2) ≠ ⟨-1, -0⟩ := by
  have h := chooseNewDirection_no_reversal ⟨600, 400⟩ none none
    { x := 100, y := 100, width := 20, height := 20, speed := 150, baseSpeed := 150,
      direction := ⟨1, 0⟩, directionTimer := 0, directionChangeInterval := 2000 }
    (1 / 2) (by norm_num) (by norm_num)
    ⟨⟨1, 0⟩, by simp [possibleDirections], by norm_num, rfl⟩
  exact h

/-- Claim C10: every call to `chooseNewDirection` (including the
boxed-in fallback) yields one of the four axis-aligned unit vectors and
never the zero vector, and a freshly constructed ghost (whose
constructor calls `chooseNewDirection`) therefore has a nonzero
heading. -/
theorem chooseNewDirection_unit_heading :
    (∀ (dims : Dims) (maze : Option Maze) (playerDims : Option (ℚ × ℚ))
      (g : Ghost) (r : ℚ), 0 ≤ r → r < 1 →
      chooseNewDirection dims maze playerDims g r ∈ possibleDirections ∧
      chooseNewDirection dims maze playerDims g r ≠ ⟨0, 0⟩) ∧
    (∀ (dims : Dims) (maze : Option Maze) (playerDims : Option (ℚ × ℚ))
      (isMobile : Bool) (screenWidth imageW imageH : ℚ) (position : Vec2) (r : ℚ),
      0 ≤ r → r < 1 →
      (mkGhost dims maze playerDims isMobile screenWidth imageW imageH position r).direction
        ∈ possibleDirections ∧
      (mkGhost dims maze playerDims isMobile screenWidth imageW imageH position r).direction
        ≠ ⟨0, 0⟩) := by
  have main : ∀ (dims : Dims) (maze : Option Maze) (playerDims : Option (ℚ × ℚ))
      (g : Ghost) (r : ℚ), 0 ≤ r → r < 1 →
      chooseNewDirection dims maze playerDims g r ∈ possibleDirections ∧
      chooseNewDirection dims maze playerDims g r ≠ ⟨0, 0⟩ := by
    intro dims maze playerDims g r h0 h1
    have hmem := chooseNewDirection_mem dims maze playerDims g h0 h1
    refine ⟨hmem, ?_⟩
    simp only [possibleDirections, List.mem_cons, List.not_mem_nil, or_false] at hmem
    rcases hmem with h | h | h | h <;> rw [h] <;> norm_num [Vec2.mk.injEq]
  exact ⟨main, fun dims maze playerDims isMobile screenWidth imageW imageH position r h0 h1 =>
    main dims maze playerDims _ r h0 h1⟩

/-- Witness for C10: a concrete call with no maze and its constructed
ghost both have a nonzero axis-aligned heading. -/
theorem chooseNewDirection_unit_heading_witness :
    chooseNewDirection ⟨600, 400⟩ none none
      { x := 100, y := 100, width := 20, height := 20, speed := 150, baseSpeed := 150,
        direction := ⟨0, 0⟩, directionTimer := 0, directionChangeInterval := 2000 }
      (1 / 2) ≠ ⟨0, 0⟩ ∧
    (mkGhost ⟨600, 400⟩ none none false 1000 64 64 ⟨50, 50⟩ (1 / 2)).direction ≠ ⟨0, 0⟩ := by
  constructor
  · exact (chooseNewDirection_unit_heading.1 ⟨600, 400⟩ none none
      { x := 100, y := 100, width := 20, height := 20, speed := 150, baseSpeed := 150,
        direction := ⟨0, 0⟩, directionTimer := 0, directionChangeInterval := 2000 }
      (1 / 2) (by norm_num) (by norm_num)).2
  · exact (chooseNewDirection_unit_heading.2 ⟨600, 400⟩ none none false 1000 64 64
      ⟨50, 50⟩ (1 / 2) (by norm_num) (by norm_num)).2

/-- Claim C4 (amended): `Ghost.update` applies no deltaTime clamp of its
own — when the move is valid and the landing position verifies, the
ghost is displaced by `direction * speed * deltaTime/1000` with the raw
deltaTime, for every deltaTime (the 50 ms cap the spec describes is
applied by the game loop, which hands the ghost a clamped value). -/
theorem ghostUpdate_uses_raw_deltaTime (dims : Dims) (maze : Option Maze)
    (playerDims : Option (ℚ × ℚ)) (g : Ghost) (deltaTime : ℚ) (r : ℕ → ℚ) (k : ℕ)
    (hv : isValidMove dims maze playerDims ⟨g.x, g.y⟩ g.direction
      (g.speed * (deltaTime / 1000)) = true)
    (hp : isEntityInValidPosition maze
      (g.x + g.direction.x * g.speed * (deltaTime / 1000))
      (g.y + g.direction.y * g.speed * (deltaTime / 1000)) g.width g.height = true) :
    (ghostUpdate dims maze playerDims g deltaTime r k).1.x =
      g.x + g.direction.x * g.speed * (deltaTime / 1000) ∧
    (ghostUpdate dims maze playerDims g deltaTime r k).1.y =
      g.y + g.direction.y * g.speed * (deltaTime / 1000) := by
  simp only [ghostUpdate, hv, hp, if_true]
  simp only [Bool.true_eq_false, if_false, ite_false, ite_true]
  refine ⟨?_, ?_⟩ <;> split <;> rfl

/-- Witness for C4 amended: with no maze, a 100 ms update moves a
rightward ghost by its speed times the full 0.1 s. -/
theorem ghostUpdate_uses_raw_deltaTime_witness :
    (ghostUpdate ⟨600, 400⟩ none (some (20, 20))
      { x := 100, y := 100, width := 20, height := 20, speed := 150, baseSpeed := 150,
        direction := ⟨1, 0⟩, directionTimer := 0, directionChangeInterval := 2000 }
      100 (fun _ => 1 / 2) 0).1.x = 100 + 1 * 150 * (100 / 1000) := by
  exact (ghostUpdate_uses_raw_deltaTime ⟨600, 400⟩ none (some (20, 20))
    { x := 100, y := 100, width := 20, height := 20, speed := 150, baseSpeed := 150,
      direction := ⟨1, 0⟩, directionTimer := 0, directionChangeInterval := 2000 }
    100 (fun _ => 1 / 2) 0 rfl rfl).1

/-- Counterexample for C4 as stated: a 100 ms update displaces a ghost
of speed 150 by 15 px, more than the 7.5 px bound `speed * 50/1000`
that would follow from a 50 ms clamp, and differently from an update
with deltaTime 50. -/
theorem ghostUpdate_clamp_counterexample :
    (ghostUpdate ⟨600, 400⟩ none (some (20, 20))
      { x := 100, y := 100, width := 20, height := 20, speed := 150, baseSpeed := 150,
        direction := ⟨1, 0⟩, directionTimer := 0, directionChangeInterval := 2000 }
      100 (fun _ => 1 / 2) 0).1.x = 115 ∧
    ¬((115 : ℚ) - 100 ≤ 150 * 50 / 1000) ∧
    (ghostUpdate ⟨600, 400⟩ none (some (20, 20))
      { x := 100, y := 100, width := 20, height := 20, speed := 150, baseSpeed := 150,
        direction := ⟨1, 0⟩, directionTimer := 0, directionChangeInterval := 2000 }
      50 (fun _ => 1 / 2) 0).1.x = 107.5 := by
  refine ⟨?_, by norm_num, ?_⟩
  · norm_num [ghostUpdate, isValidMove, isEntityInValidPosition]
  · norm_num [ghostUpdate, isValidMove, isEntityInValidPosition]
    rw [if_neg (by norm_num [abs_lt])]

/-- Claim C5: player movement is attempted per axis with
`distance = speed * deltaTime/1000`; with speed 200, deltaTime 16 ms and
direction right, a player whose X-probe is valid and who is away from
the canvas edges gains exactly 3.2 px (= 16/5) in x and keeps y. -/
theorem playerUpdate_right_16ms_scenario (dims : Dims) (maze : Option Maze)
    (p : Player) (hspeed : p.speed = 200)
    (hvx : isValidMove dims maze (some (p.width, p.height)) ⟨p.x, p.y⟩ ⟨1, 0⟩
      (16 / 5) = true)
    (hx0 : 0 ≤ p.x + 16 / 5) (hx1 : p.x + 16 / 5 ≤ dims.width - p.width)
    (hy0 : 0 ≤ p.y) (hy1 : p.y ≤ dims.height - p.height) :
    (playerUpdate dims maze p ⟨1, 0⟩ 16).x = p.x + 16 / 5 ∧
    (playerUpdate dims maze p ⟨1, 0⟩ 16).y = p.y := by
  have hdist : p.speed * (min (16 : ℚ) 50 / 1000) = 16 / 5 := by
    rw [hspeed]; norm_num
  simp only [playerUpdate, hdist]
  have hcondx : ((1 : ℚ) ≠ 0 ∨ (0 : ℚ) ≠ 0) ∧ (1 : ℚ) ≠ 0 ∧
      isValidMove dims maze (some (p.width, p.height)) ⟨p.x, p.y⟩ ⟨1, 0⟩ (16 / 5) = true :=
    ⟨Or.inl one_ne_zero, one_ne_zero, hvx⟩
  rw [if_pos hcondx]
  have hcondy : ¬(((1 : ℚ) ≠ 0 ∨ (0 : ℚ) ≠ 0) ∧ (0 : ℚ) ≠ 0 ∧
      isValidMove dims maze (some (p.width, p.height)) ⟨p.x + 1 * (16 / 5), p.y⟩
        ⟨0, 0⟩ (16 / 5) = true) := by
    rintro ⟨-, h, -⟩
    exact h rfl
  rw [if_neg hcondy]
  have hxval : max 0 (min (p.x + 16 / 5) (dims.width - p.width)) = p.x + 16 / 5 := by
    rw [min_eq_left hx1, max_eq_right hx0]
  have hyval : max 0 (min p.y (dims.height - p.height)) = p.y := by
    rw [min_eq_left hy1, max_eq_right hy0]
  split <;> simp [hxval, hyval]

/-- Witness for C5: a concrete 1-cell all-path maze with a huge cell;
the player at (100,100) moves to x = 100 + 3.2 with y unchanged. -/
theorem playerUpdate_right_16ms_scenario_witness :
    (playerUpdate ⟨600, 400⟩ (some ⟨[[0]], 1000, 0, 0⟩)
      { x := 100, y := 100, width := 20, height := 20, speed := 200,
        mouthOpen := true, animationTimer := 0, animationInterval := 150 }
      ⟨1, 0⟩ 16).x = 100 + 16 / 5 ∧
    (playerUpdate ⟨600, 400⟩ (some ⟨[[0]], 1000, 0, 0⟩)
      { x := 100, y := 100, width := 20, height := 20, speed := 200,
        mouthOpen := true, animationTimer := 0, animationInterval := 150 }
      ⟨1, 0⟩ 16).y = 100 := by
  have hcell : ∀ a b, cellAt [[0]] a b = 0 := by
    intro a b
    cases a <;> cases b <;> rfl
  have hvx : isValidMove ⟨600, 400⟩ (some ⟨[[0]], 1000, 0, 0⟩) (some ((20 : ℚ), (20 : ℚ)))
      ⟨100, 100⟩ ⟨1, 0⟩ (16 / 5) = true := by
    rw [isValidMove_some_iff]
    refine ⟨?_, by norm_num, by norm_num, by norm_num, by norm_num⟩
    intro c _
    simp [isWallAtPoint, hcell]
  exact playerUpdate_right_16ms_scenario ⟨600, 400⟩ (some ⟨[[0]], 1000, 0, 0⟩)
    { x := 100, y := 100, width := 20, height := 20, speed := 200,
      mouthOpen := true, animationTimer := 0, animationInterval := 150 }
    rfl hvx (by norm_num) (by norm_num) (by norm_num) (by norm_num)

/-! ## Frame-pipeline preservation lemmas -/

theorem colorStep_score (s : GameState) (n : ℚ) : (colorStep s n).score = s.score := by
  simp only [colorStep]; split <;> rfl

theorem colorStep_isGameOver (s : GameState) (n : ℚ) :
    (colorStep s n).isGameOver = s.isGameOver := by
  simp only [colorStep]; split <;> rfl

theorem colorStep_isRunning (s : GameState) (n : ℚ) :
    (colorStep s n).isRunning = s.isRunning := by
  simp only [colorStep]; split <;> rfl

theorem colorStep_gracePeriod (s : GameState) (n : ℚ) :
    (colorStep s n).gracePeriod = s.gracePeriod := by
  simp only [colorStep]; split <;> rfl

theorem colorStep_difficultyTimer (s : GameState) (n : ℚ) :
    (colorStep s n).difficultyTimer = s.difficultyTimer := by
  simp only [colorStep]; split <;> rfl

theorem colorStep_difficultyInterval (s : GameState) (n : ℚ) :
    (colorStep s n).difficultyInterval = s.difficultyInterval := by
  simp only [colorStep]; split <;> rfl

theorem colorStep_difficultyLevel (s : GameState) (n : ℚ) :
    (colorStep s n).difficultyLevel = s.difficultyLevel := by
  simp only [colorStep]; split <;> rfl

theorem colorStep_maze (s : GameState) (n : ℚ) : (colorStep s n).maze = s.maze := by
  simp only [colorStep]; split <;> rfl

theorem colorStep_player (s : GameState) (n : ℚ) : (colorStep s n).player = s.player := by
  simp only [colorStep]; split <;> rfl

theorem colorStep_ghosts (s : GameState) (n : ℚ) : (colorStep s n).ghosts = s.ghosts := by
  simp only [colorStep]; split <;> rfl

theorem graceStep_score (s : GameState) (n : ℚ) : (graceStep s n).score = s.score := by
  simp only [graceStep]
  split
  · split <;> rfl
  · split <;> rfl

theorem graceStep_difficultyTimer (s : GameState) (n : ℚ) :
    (graceStep s n).difficultyTimer = s.difficultyTimer := by
  simp only [graceStep]
  split
  · split <;> rfl
  · split <;> rfl

theorem graceStep_difficultyInterval (s : GameState) (n : ℚ) :
    (graceStep s n).difficultyInterval = s.difficultyInterval := by
  simp only [graceStep]
  split
  · split <;> rfl
  · split <;> rfl

theorem graceStep_difficultyLevel (s : GameState) (n : ℚ) :
    (graceStep s n).difficultyLevel = s.difficultyLevel := by
  simp only [graceStep]
  split
  · split <;> rfl
  · split <;> rfl

theorem graceStep_pos (s : GameState) (n : ℚ) (h : s.gracePeriod > 0) :
    (graceStep s n).gracePeriod = max 0 (s.gracePeriod - n) ∧
    (graceStep s n).isGameOver = s.isGameOver ∧
    (graceStep s n).isRunning = s.isRunning := by
  simp only [graceStep]
  rw [if_pos h]
  split
  next h2 => exact ⟨(max_eq_left h2).symm, rfl, rfl⟩
  next h2 => exact ⟨(max_eq_right (le_of_not_le h2)).symm, rfl, rfl⟩

theorem graceStep_zero_collision (s : GameState) (n : ℚ) (h : ¬s.gracePeriod > 0)
    (hc : (checkPlayerGhostCollisions s.player s.ghosts).isSome = true) :
    (graceStep s n).isGameOver = true ∧ (graceStep s n).isRunning = false := by
  simp only [graceStep]
  rw [if_neg h]
  split
  next => exact ⟨rfl, rfl⟩
  next heq => rw [heq] at hc; simp at hc

theorem graceStep_dichotomy (s : GameState) (n : ℚ) :
    ((graceStep s n).isGameOver = s.isGameOver ∧ (graceStep s n).isRunning = s.isRunning) ∨
    ((graceStep s n).isGameOver = true ∧ (graceStep s n).isRunning = false) := by
  simp only [graceStep]
  split
  · split
    · exact Or.inl ⟨rfl, rfl⟩
    · exact Or.inl ⟨rfl, rfl⟩
  · split
    · exact Or.inr ⟨rfl, rfl⟩
    · exact Or.inl ⟨rfl, rfl⟩

theorem addGhost_isGameOver (env : Env) (s : GameState) (r : ℕ → ℚ) (k : ℕ) :
    (addGhost env s r k).1.isGameOver = s.isGameOver := by
  simp only [addGhost]; split <;> rfl

theorem addGhost_isRunning (env : Env) (s : GameState) (r : ℕ → ℚ) (k : ℕ) :
    (addGhost env s r k).1.isRunning = s.isRunning := by
  simp only [addGhost]; split <;> rfl

theorem addGhost_score (env : Env) (s : GameState) (r : ℕ → ℚ) (k : ℕ) :
    (addGhost env s r k).1.score = s.score := by
  simp only [addGhost]; split <;> rfl

theorem addGhost_difficultyLevel (env : Env) (s : GameState) (r : ℕ → ℚ) (k : ℕ) :
    (addGhost env s r k).1.difficultyLevel = s.difficultyLevel := by
  simp only [addGhost]; split <;> rfl

theorem validateEntityPositions_isGameOver (env : Env) (s : GameState) (r : ℕ → ℚ) (k : ℕ) :
    (validateEntityPositions env s r k).1.isGameOver = s.isGameOver := by
  unfold validateEntityPositions
  split
  · rfl
  · dsimp only
    split <;> rfl

theorem validateEntityPositions_isRunning (env : Env) (s : GameState) (r : ℕ → ℚ) (k : ℕ) :
    (validateEntityPositions env s r k).1.isRunning = s.isRunning := by
  unfold validateEntityPositions
  split
  · rfl
  · dsimp only
    split <;> rfl

theorem validateEntityPositions_score (env : Env) (s : GameState) (r : ℕ → ℚ) (k : ℕ) :
    (validateEntityPositions env s r k).1.score = s.score := by
  unfold validateEntityPositions
  split
  · rfl
  · dsimp only
    split <;> rfl

theorem validateEntityPositions_difficultyLevel (env : Env) (s : GameState)
    (r : ℕ → ℚ) (k : ℕ) :
    (validateEntityPositions env s r k).1.difficultyLevel = s.difficultyLevel := by
  unfold validateEntityPositions
  split
  · rfl
  · dsimp only
    split <;> rfl

theorem increaseDifficulty_isGameOver (env : Env) (s : GameState) (r : ℕ → ℚ) (k : ℕ) :
    (increaseDifficulty env s r k).1.isGameOver = s.isGameOver := by
  simp only [increaseDifficulty, validateEntityPositions_isGameOver]
  split <;> simp [addGhost_isGameOver]

theorem increaseDifficulty_isRunning (env : Env) (s : GameState) (r : ℕ → ℚ) (k : ℕ) :
    (increaseDifficulty env s r k).1.isRunning = s.isRunning := by
  simp only [increaseDifficulty, validateEntityPositions_isRunning]
  split <;> simp [addGhost_isRunning]

theorem increaseDifficulty_score (env : Env) (s : GameState) (r : ℕ → ℚ) (k : ℕ) :
    (increaseDifficulty env s r k).1.score = s.score := by
  simp only [increaseDifficulty, validateEntityPositions_score]
  split <;> simp [addGhost_score]

theorem increaseDifficulty_difficultyLevel (env : Env) (s : GameState) (r : ℕ → ℚ) (k : ℕ) :
    (increaseDifficulty env s r k).1.difficultyLevel = s.difficultyLevel + 1 := by
  simp only [increaseDifficulty, validateEntityPositions_difficultyLevel]
  split <;> simp [addGhost_difficultyLevel]

theorem difficultyStep_isGameOver (env : Env) (s : GameState) (n : ℚ) (r : ℕ → ℚ) (k : ℕ) :
    (difficultyStep env s n r k).1.isGameOver = s.isGameOver := by
  simp only [difficultyStep]
  split
  · simp [increaseDifficulty_isGameOver]
  · rfl

theorem difficultyStep_isRunning (env : Env) (s : GameState) (n : ℚ) (r : ℕ → ℚ) (k : ℕ) :
    (difficultyStep env s n r k).1.isRunning = s.isRunning := by
  simp only [difficultyStep]
  split
  · simp [increaseDifficulty_isRunning]
  · rfl

theorem difficultyStep_score (env : Env) (s : GameState) (n : ℚ) (r : ℕ → ℚ) (k : ℕ) :
    (difficultyStep env s n r k).1.score = s.score := by
  simp only [difficultyStep]
  split
  · simp [increaseDifficulty_score]
  · rfl

theorem difficultyStep_level_ge (env : Env) (s : GameState) (n : ℚ) (r : ℕ → ℚ) (k : ℕ) :
    s.difficultyLevel ≤ (difficultyStep env s n r k).1.difficultyLevel := by
  simp only [difficultyStep]
  split
  · simp only [increaseDifficulty_difficultyLevel]
    omega
  · exact le_refl _

theorem difficultyStep_not_fire (env : Env) (s : GameState) (n : ℚ) (r : ℕ → ℚ) (k : ℕ)
    (h : s.difficultyTimer + n < s.difficultyInterval) :
    (difficultyStep env s n r k).1.gracePeriod = s.gracePeriod := by
  simp only [difficultyStep]
  rw [if_neg (by simpa using not_le.mpr h)]

theorem scoreStep_isGameOver (s : GameState) (d : Vec2) (n : ℚ) :
    (scoreStep s d n).isGameOver = s.isGameOver := by
  unfold scoreStep; split <;> rfl

theorem scoreStep_isRunning (s : GameState) (d : Vec2) (n : ℚ) :
    (scoreStep s d n).isRunning = s.isRunning := by
  unfold scoreStep; split <;> rfl

theorem scoreStep_gracePeriod (s : GameState) (d : Vec2) (n : ℚ) :
    (scoreStep s d n).gracePeriod = s.gracePeriod := by
  unfold scoreStep; split <;> rfl

theorem scoreStep_score_ge (s : GameState) (d : Vec2) (n : ℚ) (hn : 0 ≤ n)
    (hl : 0 ≤ s.difficultyLevel) : s.score ≤ (scoreStep s d n).score := by
  have h10 : (0 : ℤ) ≤ jsRound (n / 10) := by
    apply Int.floor_nonneg.mpr
    have hq : (0 : ℚ) ≤ n / 10 := by positivity
    linarith
  have h50 : (0 : ℤ) ≤ jsRound (n / 50) := by
    apply Int.floor_nonneg.mpr
    have hq : (0 : ℚ) ≤ n / 50 := by positivity
    linarith
  unfold scoreStep
  split
  · have hmul : (0 : ℚ) ≤ ((jsRound (n / 10) : ℤ) : ℚ) * ((s.difficultyLevel : ℤ) : ℚ) := by
      apply mul_nonneg
      · exact_mod_cast h10
      · exact_mod_cast hl
    dsimp only
    linarith
  · have hadd : (0 : ℚ) ≤ ((jsRound (n / 50) : ℤ) : ℚ) := by exact_mod_cast h50
    dsimp only
    linarith

theorem gameLoopFrame_stopped (env : Env) (s : GameState) (t : ℚ) (dir : Vec2)
    (r : ℕ → ℚ) (h : s.isRunning = false) : gameLoopFrame env s t dir r = s := by
  unfold gameLoopFrame
  rw [if_pos h]

theorem graceStep_gameOver_cases (s : GameState) (n : ℚ)
    (h : (graceStep s n).isGameOver = true) :
    s.isGameOver = true ∨ (graceStep s n).isRunning = false := by
  rcases graceStep_dichotomy s n with ⟨h1, -⟩ | ⟨-, h2⟩
  · exact Or.inl (h1 ▸ h)
  · exact Or.inr h2

theorem post_entities_score_ge (env : Env) (s3 : GameState) (ndt : ℚ) (r : ℕ → ℚ)
    (k : ℕ) (dir : Vec2) (hn : 0 ≤ ndt) (hl : 0 ≤ s3.difficultyLevel) :
    s3.score ≤ (scoreStep (difficultyStep env (graceStep s3 ndt) ndt r k).1 dir ndt).score := by
  refine le_trans (le_of_eq ?_) (scoreStep_score_ge _ dir ndt hn ?_)
  · rw [difficultyStep_score, graceStep_score]
  · have h1 := difficultyStep_level_ge env (graceStep s3 ndt) ndt r k
    rw [graceStep_difficultyLevel] at h1
    exact le_trans hl h1

/-- Claim C3: while the loop is running the score never decreases in a
frame with non-negative deltaTime, and once the game is over the loop is
stopped, making every subsequent frame the identity on the state (so the
score stays frozen until an explicit restart). -/
theorem score_monotone_and_frozen :
    (∀ (env : Env) (s : GameState) (t : ℚ) (dir : Vec2) (r : ℕ → ℚ),
      s.isRunning = false → gameLoopFrame env s t dir r = s) ∧
    (∀ (env : Env) (s : GameState) (t : ℚ) (dir : Vec2) (r : ℕ → ℚ),
      s.isRunning = true → (s.lastFrameTime = 0 ∨ s.lastFrameTime ≤ t) →
      0 ≤ s.difficultyLevel → s.score ≤ (gameLoopFrame env s t dir r).score) ∧
    (∀ (env : Env) (s : GameState) (t : ℚ) (dir : Vec2) (r : ℕ → ℚ),
      s.isGameOver = false → (gameLoopFrame env s t dir r).isGameOver = true →
      (gameLoopFrame env s t dir r).isRunning = false) := by
  refine ⟨gameLoopFrame_stopped, ?_, ?_⟩
  · intro env s t dir r hrun hlast hlvl
    have hrun' : ¬s.isRunning = false := by rw [hrun]; simp
    have hdt : 0 ≤ t - (if s.lastFrameTime = 0 then t else s.lastFrameTime) := by
      by_cases h0 : s.lastFrameTime = 0
      · rw [if_pos h0]; linarith
      · rw [if_neg h0]
        rcases hlast with h | h
        · exact absurd h h0
        · linarith
    have hn : 0 ≤ min (t - (if s.lastFrameTime = 0 then t else s.lastFrameTime)) 50 :=
      le_min hdt (by norm_num)
    simp only [gameLoopFrame]
    rw [if_neg hrun']
    refine le_trans (le_of_eq ?_) (post_entities_score_ge env _ _ r _ dir hn ?_)
    · simp [colorStep_score]
    · simp only [colorStep_difficultyLevel]
      exact hlvl
  · intro env s t dir r hgo hafter
    by_cases hrun : s.isRunning = false
    · rw [gameLoopFrame_stopped env s t dir r hrun] at hafter
      rw [hafter] at hgo
      cases hgo
    · simp only [gameLoopFrame] at hafter ⊢
      rw [if_neg hrun] at hafter ⊢
      rw [scoreStep_isGameOver, difficultyStep_isGameOver] at hafter
      rw [scoreStep_isRunning, difficultyStep_isRunning]
      rcases graceStep_gameOver_cases _ _ hafter with h1 | h2
      · simp only [colorStep_isGameOver] at h1
        rw [hgo] at h1
        cases h1
      · exact h2

/-- Witness for C3: applying the three parts at a concrete stopped
state, a concrete running state, and a concrete non-game-over state. -/
theorem score_monotone_and_frozen_witness :
    (gameLoopFrame ⟨⟨600, 400⟩, false, 1000, 64, 64⟩
      { isRunning := false, isGameOver := true, score := 450, lastFrameTime := 1000,
        difficultyLevel := 3, difficultyTimer := 0, difficultyInterval := 30000,
        gracePeriod := 0, gracePeriodMax := 3000, maze := none,
        player := { x := 100, y := 100, width := 20, height := 20, speed := 200,
                    mouthOpen := true, animationTimer := 0, animationInterval := 150 },
        ghosts := [], colorChangeTimer := 0, currentColorIndex := 0,
        colorChangeInterval := 5000 } 1016 ⟨0, 0⟩ (fun _ => 1 / 2) =
      { isRunning := false, isGameOver := true, score := 450, lastFrameTime := 1000,
        difficultyLevel := 3, difficultyTimer := 0, difficultyInterval := 30000,
        gracePeriod := 0, gracePeriodMax := 3000, maze := none,
        player := { x := 100, y := 100, width := 20, height := 20, speed := 200,
                    mouthOpen := true, animationTimer := 0, animationInterval := 150 },
        ghosts := [], colorChangeTimer := 0, currentColorIndex := 0,
        colorChangeInterval := 5000 }) ∧
    (GameState.score
      { isRunning := true, isGameOver := false, score := 450, lastFrameTime := 1000,
        difficultyLevel := 3, difficultyTimer := 0, difficultyInterval := 30000,
        gracePeriod := 3000, gracePeriodMax := 3000, maze := none,
        player := { x := 100, y := 100, width := 20, height := 20, speed := 200,
                    mouthOpen := true, animationTimer := 0, animationInterval := 150 },
        ghosts := [], colorChangeTimer := 0, currentColorIndex := 0,
        colorChangeInterval := 5000 } ≤
      (gameLoopFrame ⟨⟨600, 400⟩, false, 1000, 64, 64⟩
        { isRunning := true, isGameOver := false, score := 450, lastFrameTime := 1000,
          difficultyLevel := 3, difficultyTimer := 0, difficultyInterval := 30000,
          gracePeriod := 3000, gracePeriodMax := 3000, maze := none,
          player := { x := 100, y := 100, width := 20, height := 20, speed := 200,
                      mouthOpen := true, animationTimer := 0, animationInterval := 150 },
          ghosts := [], colorChangeTimer := 0, currentColorIndex := 0,
          colorChangeInterval := 5000 } 1016 ⟨0, 0⟩ (fun _ => 1 / 2)).score) := by
  constructor
  · exact score_monotone_and_frozen.1 ⟨⟨600, 400⟩, false, 1000, 64, 64⟩ _ 1016 ⟨0, 0⟩
      (fun _ => 1 / 2) rfl
  · exact score_monotone_and_frozen.2.1 ⟨⟨600, 400⟩, false, 1000, 64, 64⟩ _ 1016 ⟨0, 0⟩
      (fun _ => 1 / 2) rfl (Or.inr (by norm_num)) (by norm_num)

/-- Claim C2: in a running frame that starts with a positive grace
period no collision-driven transition happens and the grace period is
decremented by the frame's (clamped) deltaTime with a floor at 0; in a
running frame that starts with the grace period at exactly 0, if after
the entity updates some enemy's bounds overlap the player's, the frame
transitions to GAME_OVER and stops the loop. -/
theorem grace_period_gates_collision :
    (∀ (env : Env) (s : GameState) (t : ℚ) (dir : Vec2) (r : ℕ → ℚ),
      s.isRunning = true → s.gracePeriod > 0 →
      (gameLoopFrame env s t dir r).isGameOver = s.isGameOver) ∧
    (∀ (env : Env) (s : GameState) (t : ℚ) (dir : Vec2) (r : ℕ → ℚ),
      s.isRunning = true → s.gracePeriod > 0 →
      s.difficultyTimer + min (t - (if s.lastFrameTime = 0 then t else s.lastFrameTime)) 50 <
        s.difficultyInterval →
      (gameLoopFrame env s t dir r).gracePeriod =
        max 0 (s.gracePeriod -
          min (t - (if s.lastFrameTime = 0 then t else s.lastFrameTime)) 50)) ∧
    (∀ (env : Env) (s : GameState) (t : ℚ) (dir : Vec2) (r : ℕ → ℚ),
      s.isRunning = true → s.gracePeriod = 0 →
      (checkPlayerGhostCollisions
        (entitiesCore env s.maze s.player s.ghosts
          (min (t - (if s.lastFrameTime = 0 then t else s.lastFrameTime)) 50)
          dir (decide (r 0 < 5 / 100)) r 1).1
        (entitiesCore env s.maze s.player s.ghosts
          (min (t - (if s.lastFrameTime = 0 then t else s.lastFrameTime)) 50)
          dir (decide (r 0 < 5 / 100)) r 1).2.1).isSome = true →
      (gameLoopFrame env s t dir r).isGameOver = true ∧
      (gameLoopFrame env s t dir r).isRunning = false) := by
  refine ⟨?_, ?_, ?_⟩
  · intro env s t dir r hrun hg
    have hrun' : ¬s.isRunning = false := by rw [hrun]; simp
    simp only [gameLoopFrame]
    rw [if_neg hrun']
    rw [scoreStep_isGameOver, difficultyStep_isGameOver]
    have hpos : (GameState.gracePeriod
        { colorStep { s with lastFrameTime := t }
            (min (t - (if s.lastFrameTime = 0 then t else s.lastFrameTime)) 50) with
          player := (entitiesCore env
            (colorStep { s with lastFrameTime := t }
              (min (t - (if s.lastFrameTime = 0 then t else s.lastFrameTime)) 50)).maze
            (colorStep { s with lastFrameTime := t }
              (min (t - (if s.lastFrameTime = 0 then t else s.lastFrameTime)) 50)).player
            (colorStep { s with lastFrameTime := t }
              (min (t - (if s.lastFrameTime = 0 then t else s.lastFrameTime)) 50)).ghosts
            (min (t - (if s.lastFrameTime = 0 then t else s.lastFrameTime)) 50)
            dir (decide (r 0 < 5 / 100)) r 1).1,
          ghosts := (entitiesCore env
            (colorStep { s with lastFrameTime := t }
              (min (t - (if s.lastFrameTime = 0 then t else s.lastFrameTime)) 50)).maze
            (colorStep { s with lastFrameTime := t }
              (min (t - (if s.lastFrameTime = 0 then t else s.lastFrameTime)) 50)).player
            (colorStep { s with lastFrameTime := t }
              (min (t - (if s.lastFrameTime = 0 then t else s.lastFrameTime)) 50)).ghosts
            (min (t - (if s.lastFrameTime = 0 then t else s.lastFrameTime)) 50)
            dir (decide (r 0 < 5 / 100)) r 1).2.1 }) > 0 := by
      simpa [colorStep_gracePeriod] using hg
    rw [(graceStep_pos _ _ hpos).2.1]
    simp [colorStep_isGameOver]
  · intro env s t dir r hrun hg hdiff
    have hrun' : ¬s.isRunning = false := by rw [hrun]; simp
    simp only [gameLoopFrame]
    rw [if_neg hrun']
    rw [scoreStep_gracePeriod]
    rw [difficultyStep_not_fire _ _ _ r _
      (by rw [graceStep_difficultyTimer, graceStep_difficultyInterval]
          simpa [colorStep_difficultyTimer, colorStep_difficultyInterval] using hdiff)]
    rw [(graceStep_pos _ _ (by simpa [colorStep_gracePeriod] using hg)).1]
    simp [colorStep_gracePeriod]
  · intro env s t dir r hrun hg0 hcoll
    have hrun' : ¬s.isRunning = false := by rw [hrun]; simp
    simp only [gameLoopFrame]
    rw [if_neg hrun']
    constructor
    · rw [scoreStep_isGameOver, difficultyStep_isGameOver]
      refine (graceStep_zero_collision _ _ ?_ ?_).1
      · simp [colorStep_gracePeriod, hg0]
      · simpa [colorStep_maze, colorStep_player, colorStep_ghosts] using hcoll
    · rw [scoreStep_isRunning, difficultyStep_isRunning]
      refine (graceStep_zero_collision _ _ ?_ ?_).2
      · simp [colorStep_gracePeriod, hg0]
      · simpa [colorStep_maze, colorStep_player, colorStep_ghosts] using hcoll

/-- Witness for C2: with grace period 3000 a frame leaves the game
running and decrements the grace period by the 16 ms deltaTime; with
grace period 0 and an overlapping ghost the frame transitions to
GAME_OVER and stops the loop. -/
theorem grace_period_gates_collision_witness :
    (gameLoopFrame ⟨⟨600, 400⟩, false, 1000, 64, 64⟩
      { isRunning := true, isGameOver := false, score := 0, lastFrameTime := 1000,
        difficultyLevel := 1, difficultyTimer := 0, difficultyInterval := 30000,
        gracePeriod := 3000, gracePeriodMax := 3000, maze := none,
        player := { x := 100, y := 100, width := 20, height := 20, speed := 200,
                    mouthOpen := true, animationTimer := 0, animationInterval := 150 },
        ghosts := [], colorChangeTimer := 0, currentColorIndex := 0,
        colorChangeInterval := 5000 } 1016 ⟨0, 0⟩ (fun _ => 1 / 2)).isGameOver = false ∧
    (gameLoopFrame ⟨⟨600, 400⟩, false, 1000, 64, 64⟩
      { isRunning := true, isGameOver := false, score := 0, lastFrameTime := 1000,
        difficultyLevel := 1, difficultyTimer := 0, difficultyInterval := 30000,
        gracePeriod := 3000, gracePeriodMax := 3000, maze := none,
        player := { x := 100, y := 100, width := 20, height := 20, speed := 200,
                    mouthOpen := true, animationTimer := 0, animationInterval := 150 },
        ghosts := [], colorChangeTimer := 0, currentColorIndex := 0,
        colorChangeInterval := 5000 } 1016 ⟨0, 0⟩ (fun _ => 1 / 2)).gracePeriod =
      max 0 (3000 - min (1016 - (if (1000 : ℚ) = 0 then (1016 : ℚ) else (1000 : ℚ))) 50) ∧
    ((gameLoopFrame ⟨⟨600, 400⟩, false, 1000, 64, 64⟩
      { isRunning := true, isGameOver := false, score := 0, lastFrameTime := 1000,
        difficultyLevel := 1, difficultyTimer := 0, difficultyInterval := 30000,
        gracePeriod := 0, gracePeriodMax := 3000, maze := none,
        player := { x := 100, y := 100, width := 20, height := 20, speed := 200,
                    mouthOpen := true, animationTimer := 0, animationInterval := 150 },
        ghosts := [{ x := 100, y := 100, width := 20, height := 20, speed := 150,
                     baseSpeed := 150, direction := ⟨1, 0⟩, directionTimer := 0,
                     directionChangeInterval := 2000 }],
        colorChangeTimer := 0, currentColorIndex := 0,
        colorChangeInterval := 5000 } 1016 ⟨0, 0⟩ (fun _ => 1 / 2)).isGameOver = true ∧
    (gameLoopFrame ⟨⟨600, 400⟩, false, 1000, 64, 64⟩
      { isRunning := true, isGameOver := false, score := 0, lastFrameTime := 1000,
        difficultyLevel := 1, difficultyTimer := 0, difficultyInterval := 30000,
        gracePeriod := 0, gracePeriodMax := 3000, maze := none,
        player := { x := 100, y := 100, width := 20, height := 20, speed := 200,
                    mouthOpen := true, animationTimer := 0, animationInterval := 150 },
        ghosts := [{ x := 100, y := 100, width := 20, height := 20, speed := 150,
                     baseSpeed := 150, direction := ⟨1, 0⟩, directionTimer := 0,
                     directionChangeInterval := 2000 }],
        colorChangeTimer := 0, currentColorIndex := 0,
        colorChangeInterval := 5000 } 1016 ⟨0, 0⟩ (fun _ => 1 / 2)).isRunning = false) := by
  refine ⟨?_, ?_, ?_⟩
  · exact grace_period_gates_collision.1 ⟨⟨600, 400⟩, false, 1000, 64, 64⟩ _ 1016 ⟨0, 0⟩
      (fun _ => 1 / 2) rfl (by norm_num)
  · exact grace_period_gates_collision.2.1 ⟨⟨600, 400⟩, false, 1000, 64, 64⟩ _ 1016 ⟨0, 0⟩
      (fun _ => 1 / 2) rfl (by norm_num) (by norm_num)
  · refine grace_period_gates_collision.2.2 ⟨⟨600, 400⟩, false, 1000, 64, 64⟩ _ 1016 ⟨0, 0⟩
      (fun _ => 1 / 2) rfl rfl ?_
    have habs : |(12 : ℚ) / 5| = 12 / 5 := abs_of_nonneg (by norm_num)
    norm_num [entitiesCore, playerUpdate, ghostUpdate, isValidMove, isEntityInValidPosition,
      checkPlayerGhostCollisions, checkCollision, playerGetBounds, ghostGetBounds,
      List.foldl, List.find?, habs]

end MazeGame
